import Mathlib

/-!
# A shallow embedding of the `polyglottis/sitemap` Go package

This file models the sitemap-generation subsystem of the repository:

* `buffer.go` — the page buffer (`Buffer`, `NewBuffer`, `Buffer.Flush`,
  `Buffer.AddEntry`);
* `sitemap.go` — the sitemap data (`Sitemap.IsEmpty`, `Sitemap.IsFull`) and
  the lazy HTTP handler (`sitemapHandler.ServeHTTP`);
* `router.go` — the router (`Router`, `Router.fullLocation`,
  `Router.GenerateSitemaps`);
* `siteindex.go` — the sitemap index (`NewSitemapIndex`, `writeToFileXML`).

Disk storage is modelled by an explicit `Disk` state (an association list from
file names to file contents) together with a storage oracle `ok : Nat → Bool`
deciding whether the `n`-th write attempt of a run succeeds; a failed write
leaves the file map unchanged and surfaces as a Go `error` (a `Bool` flag
mirroring `err != nil`).  XML serialization itself is out of scope: a page
file stores its list of entries, the index file its list of references.

Go code that mutates its receiver and returns an `error` is translated to a
function returning the updated state paired with an error flag; `nil` pointer
sitemaps become `Option`.
-/

namespace SitemapModel

/-- A sitemap entry (`Entry` in `sitemap.go`): the `loc` URL plus the optional
`priority`.  The other optional attributes (`lastmod`, `changefreq`) are never
set by the router and are omitted. -/
structure Entry where
  location : String
  priority : Option Rat
deriving DecidableEq, Repr

/-- The content of a file on disk: a sitemap page (its entries, in order) or a
sitemap index (its references, in order). -/
inductive FileContent where
  | page (entries : List Entry)
  | index (refs : List String)
deriving DecidableEq, Repr

/-- The persistent store: `attempts` counts the write attempts made so far
(successful or not), and `files` maps file names to contents, most recent
write first. -/
structure Disk where
  attempts : Nat
  files : List (String × FileContent)
deriving DecidableEq, Repr

def emptyDisk : Disk := ⟨0, []⟩

/-- Read a file from the disk (first, i.e. most recent, binding wins). -/
def getFile (d : Disk) (name : String) : Option FileContent :=
  (d.files.find? (fun f => f.1 == name)).map (fun f => f.2)

/-- `writeToFileXML` from `siteindex.go`, against the storage oracle `ok`:
the write succeeds iff `ok` allows the current attempt, and the `error` is
reported as `false` in the first component.  On failure the model leaves the
file map unchanged; this collapses the source's two failure modes —
`os.Create` failing, which leaves the target untouched, and a later
header-write or `Encode` failure, which leaves the target truncated or
partially written, since `os.Create` truncates before writing.  Conclusions
about the failed write's own target file therefore do not transfer to the
source; conclusions about files other than the write's target do, as
neither failure mode touches any other file. -/
def writeToFileXML (ok : Nat → Bool) (d : Disk) (name : String)
    (content : FileContent) : Bool × Disk :=
  if ok d.attempts then
    (true, ⟨d.attempts + 1, (name, content) :: d.files⟩)
  else
    (false, ⟨d.attempts + 1, d.files⟩)

/-- The storage oracle under which every write succeeds. -/
def alwaysOk : Nat → Bool := fun _ => true

/-- `Sitemap.IsEmpty` from `sitemap.go`: true if the sitemap is `nil` or has
no entries.  A `*Sitemap` is modelled by its entry list, `nil` by `none`. -/
def Sitemap.IsEmpty : Option (List Entry) → Bool
  | none => true
  | some l => l.isEmpty

/-- `Sitemap.IsFull` from `sitemap.go`: a `nil` sitemap is not full; otherwise
full once it holds at least 50000 entries. -/
def Sitemap.IsFull : Option (List Entry) → Bool
  | none => false
  | some l => 50000 ≤ l.length

/-- The entries of a possibly-`nil` sitemap. -/
def sitemapEntries : Option (List Entry) → List Entry
  | none => []
  | some l => l

/-- `Buffer` from `buffer.go`. -/
structure Buffer where
  sitemap : Option (List Entry)
  count : Nat
  domain : String
  cachePath : String
  Locations : List String
deriving DecidableEq, Repr

/-- `NewBuffer` from `buffer.go`. -/
def NewBuffer (domain path : String) : Buffer :=
  ⟨none, 0, domain, path, []⟩

/-- The `sitemap_%d.xml` naming scheme (`sitemap_pattern` in `buffer.go`). -/
def sitemapName (n : Nat) : String :=
  "sitemap_" ++ toString n ++ ".xml"

/-- The index file name used by `Router.GenerateSitemaps`. -/
def indexName : String := "sitemapindex.xml"

/-- `Buffer.Flush` from `buffer.go`.  If the current sitemap is non-empty the
page counter is incremented, the page is written, and only on success is its
name recorded; on a write failure the error is returned with the counter
already incremented and the sitemap still held.  After a successful body (or
when the sitemap was empty) the current sitemap is reset to `nil`. -/
def Buffer.Flush (ok : Nat → Bool) (b : Buffer) (d : Disk) :
    (Buffer × Disk) × Bool :=
  if Sitemap.IsEmpty b.sitemap then
    (({ b with sitemap := none }, d), false)
  else
    let count := b.count + 1
    let location := sitemapName count
    let w := writeToFileXML ok d (b.cachePath ++ location)
      (.page (sitemapEntries b.sitemap))
    if w.1 then
      (({ b with
            count := count
            Locations := b.Locations ++ [location]
            sitemap := none }, w.2), false)
    else
      (({ b with count := count }, w.2), true)

/-- `Buffer.AddEntry` from `buffer.go`: if the current sitemap is full, flush
it first (propagating a flush error without inserting), then append the entry
to the (possibly fresh) current sitemap. -/
def Buffer.AddEntry (ok : Nat → Bool) (b : Buffer) (d : Disk) (e : Entry) :
    (Buffer × Disk) × Bool :=
  let step :=
    if Sitemap.IsFull b.sitemap then Buffer.Flush ok b d else ((b, d), false)
  if step.2 then step
  else
    let b1 := step.1.1
    (({ b1 with sitemap := some (sitemapEntries b1.sitemap ++ [e]) },
      step.1.2), false)

/-- One character of Go's `html.EscapeString`: `&`, `'`, `<`, `>` and `"`
are replaced by their entity references, every other character is kept. -/
def escapeChar (c : Char) : String :=
  if c = '&' then "&amp;"
  else if c = Char.ofNat 39 then "&#39;"
  else if c = '<' then "&lt;"
  else if c = '>' then "&gt;"
  else if c = Char.ofNat 34 then "&#34;"
  else String.singleton c

/-- The characters of the escaped string, character by character. -/
def escapeData : List Char → List Char
  | [] => []
  | c :: cs => (escapeChar c).data ++ escapeData cs

/-- Go's `html.EscapeString`, as used by `Router.fullLocation` and
`NewSitemapIndex`. -/
def escapeString (s : String) : String :=
  ⟨escapeData s.data⟩

/-- `path` from `router.go`: a registered static route. -/
structure path where
  Priority : Rat
  Location : String
deriving DecidableEq, Repr

deriving instance DecidableEq for Except

/-- `paramPath` from `router.go`: a registered parameterized route.  The
enumerator and the route's URL substitution are external collaborators; a run
of the enumerator is modelled by the finite list of callback invocations it
makes, each carrying the result of `Route.URL(pairs...).String()` for that
callback (`Except.error` when the substitution fails), followed by the
enumerator's own return value once all callbacks succeeded (`enumErr`). -/
structure paramPath where
  Priority : Rat
  bindings : List (Except Unit String)
  enumErr : Bool
deriving DecidableEq, Repr

/-- `Options` from `router.go`. -/
structure Options where
  CachePath : String
  ServerPath : String
  DefaultPriority : Rat
  Domain : String
deriving DecidableEq, Repr

/-- `Router` from `router.go`, restricted to the sitemap-relevant state. -/
structure Router where
  staticEntries : List path
  paramEntries : List paramPath
  Options : Options
deriving DecidableEq, Repr

/-- `Router.fullLocation` from `router.go`: the domain concatenated with the
HTML-escaped absolute path. -/
def Router.fullLocation (r : Router) (absPath : String) : String :=
  r.Options.Domain ++ escapeString absPath

/-- The `Entry` built by `Router.GenerateSitemaps` for a static route. -/
def staticEntry (r : Router) (e : path) : Entry :=
  ⟨r.fullLocation e.Location, some e.Priority⟩

/-- The `Entry` built by `Router.GenerateSitemaps` for one enumerator
callback of a parameterized route, given the substituted URL path. -/
def paramEntryOf (r : Router) (p : paramPath) (url : String) : Entry :=
  ⟨r.fullLocation url, some p.Priority⟩

/-- The static-entries loop of `Router.GenerateSitemaps`: each entry is fed
to `Buffer.AddEntry` and — exactly as in the source, where the returned
`error` is not inspected — the error flag is discarded and the loop
continues. -/
def addAllIgn (ok : Nat → Bool) (es : List Entry) (bd : Buffer × Disk) :
    Buffer × Disk :=
  es.foldl (fun bd e => (Buffer.AddEntry ok bd.1 bd.2 e).1) bd

/-- The callback closure passed to an enumerator in
`Router.GenerateSitemaps`, run over the enumerator's callback sequence: a
substitution failure or an `AddEntry` error stops the run and is returned to
the enumerator, which propagates it. -/
def runCallbacks (ok : Nat → Bool) (r : Router) (p : paramPath) :
    List (Except Unit String) → Buffer × Disk → (Buffer × Disk) × Bool
  | [], bd => (bd, false)
  | sub :: rest, bd =>
    match sub with
    | .error _ => (bd, true)
    | .ok url =>
      let s := Buffer.AddEntry ok bd.1 bd.2 (paramEntryOf r p url)
      if s.2 then s else runCallbacks ok r p rest s.1

/-- One full enumerator invocation: the callbacks, then the enumerator's own
return value. -/
def runEnumerator (ok : Nat → Bool) (r : Router) (p : paramPath)
    (bd : Buffer × Disk) : (Buffer × Disk) × Bool :=
  let s := runCallbacks ok r p p.bindings bd
  if s.2 then s else (s.1, p.enumErr)

/-- The parameterized-entries loop of `Router.GenerateSitemaps`: an
enumerator error aborts the loop (`return nil, err` in the source). -/
def runParamEntries (ok : Nat → Bool) (r : Router) :
    List paramPath → Buffer × Disk → (Buffer × Disk) × Bool
  | [], bd => (bd, false)
  | p :: ps, bd =>
    let s := runEnumerator ok r p bd
    if s.2 then s else runParamEntries ok r ps s.1

/-- `NewSitemapIndex` from `siteindex.go`, reduced to the reference
locations it stores: each given URL, HTML-escaped. -/
def NewSitemapIndex (sitemapUrls : List String) : List String :=
  sitemapUrls.map (fun loc => escapeString loc)

/-- `Router.GenerateSitemaps` from `router.go`: a fresh buffer; the static
entries (errors discarded); the parameterized entries (errors abort); the
final flush (errors abort); then the index file, listing
`Domain ++ ServerPath ++ loc` for every recorded page, is written (errors
abort).  On success the relative names of all files written are returned. -/
def Router.GenerateSitemaps (ok : Nat → Bool) (r : Router) (d : Disk) :
    Disk × Except Unit (List String) :=
  let bd1 := addAllIgn ok (r.staticEntries.map (staticEntry r))
    (NewBuffer r.Options.Domain r.Options.CachePath, d)
  let s := runParamEntries ok r r.paramEntries bd1
  if s.2 then (s.1.2, .error ())
  else
    let f := Buffer.Flush ok s.1.1 s.1.2
    if f.2 then (f.1.2, .error ())
    else
      let b := f.1.1
      let fullLocations := b.Locations.map
        (fun loc => r.Options.Domain ++ r.Options.ServerPath ++ loc)
      let refs := NewSitemapIndex fullLocations
      let w := writeToFileXML ok f.1.2 (r.Options.CachePath ++ indexName)
        (.index refs)
      if w.1 then (w.2, .ok (b.Locations ++ [indexName]))
      else (w.2, .error ())

/-! ## The lazy handler, sequential view (`sitemapHandler.ServeHTTP`)

A single request against a quiescent handler.  The handler state is whether
`fileHandler` has been assigned; the request outcome distinguishes a normal
response from a panic of the handler goroutine. -/

/-- Outcome of one `ServeHTTP` call. -/
inductive ServeOutcome where
  | served
  | panicked
deriving DecidableEq, Repr

/-- `sitemapHandler.ServeHTTP` from `sitemap.go`, for one request with no
concurrent activity: if `fileHandler` is already set, serve; otherwise, if
the cached `sitemapindex.xml` exists, install the file handler and serve;
otherwise run `Router.GenerateSitemaps` and, exactly as in the source,
`panic(err)` on error — there is no error-response path.  Returns the new
`fileHandler` flag, the new disk, and the outcome. -/
def ServeHTTP (ok : Nat → Bool) (r : Router) (fileHandlerSet : Bool)
    (d : Disk) : Bool × Disk × ServeOutcome :=
  if fileHandlerSet then (true, d, .served)
  else
    match getFile d (r.Options.CachePath ++ indexName) with
    | some _ => (true, d, .served)
    | none =>
      let g := Router.GenerateSitemaps ok r d
      match g.2 with
      | .error _ => (false, g.1, .panicked)
      | .ok _ => (true, g.1, .served)

/-! ## The lazy handler under two concurrent requests

`ServeHTTP` begins with `mutex := sh.router.sitemapMutex`, which copies the
`sync.RWMutex` **by value**: every request locks and unlocks its own private
copy, so the lock operations provide no exclusion between requests (only
`Router.GenerateSitemaps` itself locks the router's actual mutex, serializing
the generations proper).  The model below gives each of two request threads
the program counter of `ServeHTTP`'s atomic actions; lock operations on the
private copies never block (their copies are taken here in the unlocked
state, as happens when both requests copy the mutex before any generation
holds the router's mutex).  Generation is one atomic step — it runs under the
router's real mutex — and is assumed to succeed, creating the index file.

Program counters: 0 RLock(copy); 1 read `fileHandler` (nil → 2, else 8);
2 RUnlock(copy); 3 Lock(copy); 4 re-read `fileHandler` (nil → 5, else 7);
5 `os.Open` the index (exists → 6, else 10); 10 `GenerateSitemaps`
(increments `genCount`, creates the index); 6 assign `fileHandler`;
7 Unlock(copy), RLock(copy); 8 serve; 9 done (deferred RUnlock(copy)). -/

/-- Shared state plus the two program counters. -/
structure TwoReqCfg where
  pc1 : Nat
  pc2 : Nat
  fileHandler : Bool
  indexExists : Bool
  genCount : Nat
deriving DecidableEq, Repr

/-- One atomic action of one request thread (`t = true` is thread 1); a
finished thread stutters. -/
def reqStep (t : Bool) (c : TwoReqCfg) : TwoReqCfg :=
  let pc := if t then c.pc1 else c.pc2
  let goto := fun (c : TwoReqCfg) (n : Nat) =>
    if t then { c with pc1 := n } else { c with pc2 := n }
  match pc with
  | 0 => goto c 1
  | 1 => goto c (if c.fileHandler then 8 else 2)
  | 2 => goto c 3
  | 3 => goto c 4
  | 4 => goto c (if c.fileHandler then 7 else 5)
  | 5 => goto c (if c.indexExists then 6 else 10)
  | 10 => goto { c with genCount := c.genCount + 1, indexExists := true } 6
  | 6 => goto { c with fileHandler := true } 7
  | 7 => goto c 8
  | 8 => goto c 9
  | _ => c

/-- Run a schedule (a list of thread choices) from a configuration. -/
def runSchedule (sched : List Bool) (c : TwoReqCfg) : TwoReqCfg :=
  sched.foldl (fun c t => reqStep t c) c

/-- Both requests arrive before any sitemap exists. -/
def initTwoReq : TwoReqCfg := ⟨0, 0, false, false, 0⟩

/-- The interleaving in which both requests pass the `fileHandler` re-check
and the index-file check before either runs a generation. -/
def raceSchedule : List Bool :=
  [true, true, true, true, true, true,
   false, false, false, false, false, false,
   true, true, false]

/-! ## Basic lemmas -/

theorem data_append (a b : String) : (a ++ b).data = a.data ++ b.data := rfl

theorem string_eq_of_data_eq {a b : String} (h : a.data = b.data) : a = b := by
  cases a; cases b; exact congrArg String.mk h

theorem escapeChar_data_length_pos (c : Char) :
    0 < (escapeChar c).data.length := by
  unfold escapeChar
  repeat' split
  all_goals first | decide | simp [String.singleton]

theorem escapeData_length_le (l : List Char) :
    l.length ≤ (escapeData l).length := by
  induction l with
  | nil => simp [escapeData]
  | cons c cs ih =>
    simp only [escapeData, List.length_cons, List.length_append]
    have := escapeChar_data_length_pos c
    omega

theorem escapeData_length_lt (l : List Char)
    (h : '&' ∈ l ∨ '<' ∈ l) : l.length < (escapeData l).length := by
  induction l with
  | nil => simp at h
  | cons c cs ih =>
    simp only [escapeData, List.length_cons, List.length_append]
    rcases h with h | h
    · rcases List.mem_cons.mp h with h | h
      · subst h
        have := escapeData_length_le cs
        have : (escapeChar '&').data.length = 5 := by decide
        omega
      · have := ih (Or.inl h)
        have := escapeChar_data_length_pos c
        omega
    · rcases List.mem_cons.mp h with h | h
      · subst h
        have := escapeData_length_le cs
        have : (escapeChar '<').data.length = 4 := by decide
        omega
      · have := ih (Or.inr h)
        have := escapeChar_data_length_pos c
        omega

/-! ## Closed form of the buffer under successful storage

`flushedCount n` is the number of pages flushed by `AddEntry` while adding
`n` entries to a fresh buffer (a page flushes lazily, when the 50001st,
100001st, … entry arrives), `chunkAt es i` the content of page `i + 1`. -/

def flushedCount (n : Nat) : Nat := if n = 0 then 0 else (n - 1) / 50000

def chunkAt (es : List Entry) (i : Nat) : List Entry :=
  (es.drop (i * 50000)).take 50000

/-- The page files written while adding `es` to a fresh buffer at cache path
`cp` flushed `k` pages: most recent write first. -/
def pagesFiles (cp : String) (es : List Entry) (k : Nat) :
    List (String × FileContent) :=
  ((List.range k).reverse).map
    (fun i => (cp ++ sitemapName (i + 1), FileContent.page (chunkAt es i)))

theorem writeToFileXML_alwaysOk (d : Disk) (n : String) (c : FileContent) :
    writeToFileXML alwaysOk d n c =
      (true, ⟨d.attempts + 1, (n, c) :: d.files⟩) := by
  simp [writeToFileXML, alwaysOk]

theorem flush_alwaysOk_some (b : Buffer) (d : Disk) (l : List Entry)
    (h : b.sitemap = some l) (hne : l ≠ []) :
    Buffer.Flush alwaysOk b d =
      ((⟨none, b.count + 1, b.domain, b.cachePath,
          b.Locations ++ [sitemapName (b.count + 1)]⟩,
        ⟨d.attempts + 1,
          (b.cachePath ++ sitemapName (b.count + 1), .page l) :: d.files⟩),
        false) := by
  simp [Buffer.Flush, h, Sitemap.IsEmpty, List.isEmpty_eq_false.mpr hne,
    writeToFileXML_alwaysOk, sitemapEntries]

theorem addEntry_notfull (ok : Nat → Bool) (b : Buffer) (d : Disk) (e : Entry)
    (h : Sitemap.IsFull b.sitemap = false) :
    Buffer.AddEntry ok b d e =
      (({ b with sitemap := some (sitemapEntries b.sitemap ++ [e]) }, d),
        false) := by
  simp [Buffer.AddEntry, h]

theorem addEntry_alwaysOk_full (b : Buffer) (d : Disk) (l : List Entry)
    (e : Entry) (h : b.sitemap = some l) (hfull : 50000 ≤ l.length) :
    Buffer.AddEntry alwaysOk b d e =
      ((⟨some [e], b.count + 1, b.domain, b.cachePath,
          b.Locations ++ [sitemapName (b.count + 1)]⟩,
        ⟨d.attempts + 1,
          (b.cachePath ++ sitemapName (b.count + 1), .page l) :: d.files⟩),
        false) := by
  have hne : l ≠ [] := by
    intro hl; subst hl; simp at hfull
  have hf : Sitemap.IsFull b.sitemap = true := by
    simp [Sitemap.IsFull, h, hfull]
  simp [Buffer.AddEntry, hf, flush_alwaysOk_some b d l h hne, sitemapEntries]

theorem addAllIgn_append (ok : Nat → Bool) (es1 es2 : List Entry)
    (bd : Buffer × Disk) :
    addAllIgn ok (es1 ++ es2) bd = addAllIgn ok es2 (addAllIgn ok es1 bd) := by
  simp [addAllIgn, List.foldl_append]

theorem addAllIgn_singleton (ok : Nat → Bool) (e : Entry) (bd : Buffer × Disk) :
    addAllIgn ok [e] bd = (Buffer.AddEntry ok bd.1 bd.2 e).1 := by
  simp [addAllIgn]

/-- Closed form of the static-entries loop on a fresh buffer when every
write succeeds: the state after adding `es` in order. -/
theorem addAllIgn_alwaysOk_closed (dom cp : String) (d0 : Disk)
    (es : List Entry) :
    addAllIgn alwaysOk es (NewBuffer dom cp, d0) =
      (⟨if es.length = 0 then none
          else some (es.drop (flushedCount es.length * 50000)),
        flushedCount es.length, dom, cp,
        (List.range (flushedCount es.length)).map
          (fun i => sitemapName (i + 1))⟩,
       ⟨d0.attempts + flushedCount es.length,
        pagesFiles cp es (flushedCount es.length) ++ d0.files⟩) := by
  induction es using List.reverseRecOn with
  | nil =>
    simp [addAllIgn, NewBuffer, flushedCount, pagesFiles]
  | append_singleton es e ih =>
    rw [addAllIgn_append, ih, addAllIgn_singleton]
    have hlen : (es ++ [e]).length = es.length + 1 := by
      rw [List.length_append, List.length_singleton]
    rw [hlen]
    rcases Nat.eq_zero_or_pos es.length with hn0 | hpos
    · have hes : es = [] := List.length_eq_zero.mp hn0
      subst hes
      simp [flushedCount, Buffer.AddEntry, Sitemap.IsFull, sitemapEntries,
        pagesFiles]
    · have hn0 : es.length ≠ 0 := Nat.pos_iff_ne_zero.mp hpos
      set n := es.length with hn
      rw [if_neg hn0, if_neg (by omega : ¬n + 1 = 0)]
      have hfc : flushedCount n = (n - 1) / 50000 := if_neg hn0
      have hfcle : flushedCount n * 50000 ≤ n - 1 := by
        rw [hfc]; exact Nat.div_mul_le_self _ _
      have hcurlen : (es.drop (flushedCount n * 50000)).length =
          n - flushedCount n * 50000 := by
        rw [List.length_drop, hn]
      have hcurub : n - flushedCount n * 50000 ≤ 50000 := by
        rw [hfc]; omega
      have hchunk_frozen : ∀ i, i * 50000 + 50000 ≤ n →
          chunkAt (es ++ [e]) i = chunkAt es i := by
        intro i hi
        unfold chunkAt
        rw [List.drop_append_eq_append_drop]
        have h1 : i * 50000 - es.length = 0 := by omega
        rw [h1, List.drop_zero]
        exact List.take_append_of_le_length (by rw [List.length_drop]; omega)
      have hpages_frozen : flushedCount n * 50000 ≤ n →
          pagesFiles cp (es ++ [e]) (flushedCount n) =
            pagesFiles cp es (flushedCount n) := by
        intro _
        unfold pagesFiles
        refine List.map_congr_left ?_
        intro i hi
        have hi2 : i < (n - 1) / 50000 :=
          hfc ▸ List.mem_range.mp (List.mem_reverse.mp hi)
        rw [hchunk_frozen i (by omega)]
      by_cases hmod : n % 50000 = 0
      · -- the current page is full: `AddEntry` flushes it first
        have hfull : 50000 ≤ (es.drop (flushedCount n * 50000)).length := by
          rw [hcurlen, hfc]; omega
        rw [addEntry_alwaysOk_full _ _ _ e rfl hfull]
        have hfc1 : flushedCount (n + 1) = flushedCount n + 1 := by
          unfold flushedCount
          rw [if_neg hn0, if_neg (by omega : ¬n + 1 = 0)]
          omega
        rw [hfc1]
        have hmul : (flushedCount n + 1) * 50000 = n := by
          rw [hfc]; omega
        have hcur50000 : (es.drop (flushedCount n * 50000)).length = 50000 := by
          rw [hcurlen, hfc]; omega
        have hdropn : (es ++ [e]).drop ((flushedCount n + 1) * 50000) = [e] := by
          rw [hmul, hn, List.drop_left]
        have h1 : flushedCount n * 50000 - es.length = 0 := by omega
        have hlast : chunkAt (es ++ [e]) (flushedCount n) =
            es.drop (flushedCount n * 50000) := by
          unfold chunkAt
          rw [List.drop_append_eq_append_drop, h1, List.drop_zero,
            List.take_append_of_le_length (by rw [hcur50000]),
            List.take_of_length_le (by rw [hcur50000])]
        have hstep : pagesFiles cp (es ++ [e]) (flushedCount n + 1) =
            (cp ++ sitemapName (flushedCount n + 1),
              FileContent.page (chunkAt (es ++ [e]) (flushedCount n))) ::
              pagesFiles cp (es ++ [e]) (flushedCount n) := by
          unfold pagesFiles
          rw [List.range_succ, List.reverse_append]
          simp
        rw [hstep, hlast, hpages_frozen (by omega), hdropn,
          List.range_succ, List.map_append]
        simp [Nat.add_assoc]
      · -- the current page has room: `AddEntry` appends to it
        have hnotfull : Sitemap.IsFull
            (some (es.drop (flushedCount n * 50000))) = false := by
          simp only [Sitemap.IsFull]
          rw [hcurlen, hfc]
          simp only [decide_eq_false_iff_not]
          omega
        rw [addEntry_notfull _ _ _ e hnotfull]
        have hfc1 : flushedCount (n + 1) = flushedCount n := by
          unfold flushedCount
          rw [if_neg hn0, if_neg (by omega : ¬n + 1 = 0)]
          omega
        rw [hfc1]
        have h1 : flushedCount n * 50000 - es.length = 0 := by omega
        have hdrop : (es ++ [e]).drop (flushedCount n * 50000) =
            es.drop (flushedCount n * 50000) ++ [e] := by
          rw [List.drop_append_eq_append_drop, h1, List.drop_zero]
        rw [hdrop, hpages_frozen (by omega)]
        simp [sitemapEntries]
theorem pagesFiles_succ (cp : String) (es : List Entry) (k : Nat) :
    pagesFiles cp es (k + 1) =
      (cp ++ sitemapName (k + 1), FileContent.page (chunkAt es k)) ::
        pagesFiles cp es k := by
  unfold pagesFiles
  rw [List.range_succ, List.reverse_append]
  simp

/-- Adding `es` to a fresh buffer and flushing, under successful storage:
`⌈es.length / 50000⌉` pages, named `sitemap_1.xml` … in order, page `i + 1`
holding `chunkAt es i`. -/
theorem flushAll_closed (dom cp : String) (d0 : Disk) (es : List Entry) :
    Buffer.Flush alwaysOk (addAllIgn alwaysOk es (NewBuffer dom cp, d0)).1
        (addAllIgn alwaysOk es (NewBuffer dom cp, d0)).2 =
      ((⟨none, (es.length + 49999) / 50000, dom, cp,
          (List.range ((es.length + 49999) / 50000)).map
            (fun i => sitemapName (i + 1))⟩,
        ⟨d0.attempts + (es.length + 49999) / 50000,
          pagesFiles cp es ((es.length + 49999) / 50000) ++ d0.files⟩),
        false) := by
  rw [addAllIgn_alwaysOk_closed]
  rcases Nat.eq_zero_or_pos es.length with hn0 | hpos
  · have hes : es = [] := List.length_eq_zero.mp hn0
    subst hes
    simp [Buffer.Flush, Sitemap.IsEmpty, flushedCount, pagesFiles]
  · have hn0 : es.length ≠ 0 := Nat.pos_iff_ne_zero.mp hpos
    set n := es.length with hn
    rw [if_neg hn0]
    have hfc : flushedCount n = (n - 1) / 50000 := if_neg hn0
    have hcurlen : (es.drop (flushedCount n * 50000)).length =
        n - flushedCount n * 50000 := by
      rw [List.length_drop, hn]
    have hcurne : es.drop (flushedCount n * 50000) ≠ [] := by
      intro hnil
      have := congrArg List.length hnil
      rw [hcurlen] at this
      simp at this
      rw [hfc] at this
      omega
    rw [flush_alwaysOk_some _ _ _ rfl hcurne]
    have hK : (n + 49999) / 50000 = flushedCount n + 1 := by
      rw [hfc]; omega
    rw [hK, pagesFiles_succ]
    have hchunk : chunkAt es (flushedCount n) =
        es.drop (flushedCount n * 50000) := by
      unfold chunkAt
      exact List.take_of_length_le (by rw [hcurlen, hfc]; omega)
    rw [hchunk, List.range_succ, List.map_append]
    simp [Nat.add_assoc]

/-! ## Closed form of a fully successful generation -/

/-- The entries a generation is expected to emit, in order: one per static
source in registration order, then, per parameterized source in registration
order, one per successful enumerator callback in callback order. -/
def expectedEntries (r : Router) : List Entry :=
  r.staticEntries.map (staticEntry r) ++
    r.paramEntries.flatMap (fun p =>
      (p.bindings.filterMap (fun s => s.toOption)).map (paramEntryOf r p))

/-- The page contents on a disk, in the order the pages were written. -/
def writtenPages (files : List (String × FileContent)) : List (List Entry) :=
  files.reverse.filterMap (fun f =>
    match f.2 with
    | .page es => some es
    | .index _ => none)

theorem flush_alwaysOk_noerr (b : Buffer) (d : Disk) :
    (Buffer.Flush alwaysOk b d).2 = false := by
  unfold Buffer.Flush
  split
  · rfl
  · simp [writeToFileXML, alwaysOk]

theorem addEntry_alwaysOk_noerr (b : Buffer) (d : Disk) (e : Entry) :
    (Buffer.AddEntry alwaysOk b d e).2 = false := by
  have h : (if Sitemap.IsFull b.sitemap then Buffer.Flush alwaysOk b d
      else ((b, d), false)).2 = false := by
    split
    · exact flush_alwaysOk_noerr b d
    · rfl
  simp [Buffer.AddEntry, h]

theorem addAllIgn_cons (ok : Nat → Bool) (e : Entry) (es : List Entry)
    (bd : Buffer × Disk) :
    addAllIgn ok (e :: es) bd =
      addAllIgn ok es (Buffer.AddEntry ok bd.1 bd.2 e).1 := by
  simp [addAllIgn]

theorem runCallbacks_allOk (r : Router) (p : paramPath) :
    ∀ (bs : List (Except Unit String)) (bd : Buffer × Disk),
      (∀ s ∈ bs, s.isOk = true) →
      runCallbacks alwaysOk r p bs bd =
        (addAllIgn alwaysOk
          ((bs.filterMap (fun s => s.toOption)).map (paramEntryOf r p)) bd,
          false)
  | [], bd, _ => by simp [runCallbacks, addAllIgn]
  | s :: rest, bd, h => by
    match s with
    | .error _ =>
      exact absurd (h _ (List.mem_cons_self _ _)) Bool.false_ne_true
    | .ok url =>
      rw [runCallbacks]
      simp only [addEntry_alwaysOk_noerr, Bool.false_eq_true, if_false]
      rw [runCallbacks_allOk r p rest _
        (fun s hs => h s (List.mem_cons_of_mem _ hs))]
      have hfm : (Except.ok (ε := Unit) url :: rest).filterMap
          (fun s => s.toOption) =
          url :: rest.filterMap (fun s => s.toOption) := by
        simp [Except.toOption]
      rw [hfm, List.map_cons, addAllIgn_cons]

theorem runParamEntries_allOk (r : Router) :
    ∀ (ps : List paramPath) (bd : Buffer × Disk),
      (∀ p ∈ ps, p.enumErr = false ∧ ∀ s ∈ p.bindings, s.isOk = true) →
      runParamEntries alwaysOk r ps bd =
        (addAllIgn alwaysOk
          (ps.flatMap (fun p =>
            (p.bindings.filterMap (fun s => s.toOption)).map
              (paramEntryOf r p))) bd,
          false)
  | [], bd, _ => by simp [runParamEntries, addAllIgn]
  | p :: ps, bd, h => by
    have hp := h p (List.mem_cons_self _ _)
    rw [runParamEntries, runEnumerator,
      runCallbacks_allOk r p p.bindings bd hp.2]
    simp only [hp.1, Bool.false_eq_true, if_false]
    rw [runParamEntries_allOk r ps _
      (fun q hq => h q (List.mem_cons_of_mem _ hq))]
    rw [List.flatMap_cons, addAllIgn_append]

theorem runParamEntries_allOk2 (r : Router) (ps : List paramPath)
    (h : ∀ p ∈ ps, p.enumErr = false ∧ ∀ s ∈ p.bindings, s.isOk = true)
    (bd : Buffer × Disk) :
    runParamEntries alwaysOk r ps bd =
      (addAllIgn alwaysOk
        (ps.flatMap (fun p =>
          (p.bindings.filterMap (fun s => s.toOption)).map
            (paramEntryOf r p))) bd,
        false) :=
  runParamEntries_allOk r ps bd h

theorem flatten_chunks (es : List Entry) :
    ∀ k, ((List.range k).map (chunkAt es)).flatten ++ es.drop (k * 50000)
      = es := by
  intro k
  induction k with
  | zero => simp
  | succ k ih =>
    rw [List.range_succ, List.map_append, List.flatten_append]
    have h1 : chunkAt es k ++ es.drop ((k + 1) * 50000) =
        es.drop (k * 50000) := by
      unfold chunkAt
      have h2 : (k + 1) * 50000 = k * 50000 + 50000 := by ring
      rw [h2, ← List.drop_drop, List.take_append_drop]
    rw [List.append_assoc]
    simp only [List.flatten, List.append_nil]
    rw [h1, ih]

/-- Closed form of `Router.GenerateSitemaps` when every write succeeds and
every enumerator callback and return succeeds. -/
theorem generate_allOk_closed (r : Router) (d0 : Disk)
    (h : ∀ p ∈ r.paramEntries, p.enumErr = false ∧
      ∀ s ∈ p.bindings, s.isOk = true) :
    Router.GenerateSitemaps alwaysOk r d0 =
      (⟨d0.attempts + ((expectedEntries r).length + 49999) / 50000 + 1,
        (r.Options.CachePath ++ indexName,
          .index (NewSitemapIndex
            (((List.range (((expectedEntries r).length + 49999) / 50000)).map
                (fun i => sitemapName (i + 1))).map
              (fun loc =>
                r.Options.Domain ++ r.Options.ServerPath ++ loc)))) ::
          (pagesFiles r.Options.CachePath (expectedEntries r)
              (((expectedEntries r).length + 49999) / 50000) ++ d0.files)⟩,
       .ok (((List.range (((expectedEntries r).length + 49999) / 50000)).map
          (fun i => sitemapName (i + 1))) ++ [indexName])) := by
  simp only [expectedEntries, Router.GenerateSitemaps,
    runParamEntries_allOk2 r r.paramEntries h, Bool.false_eq_true, if_false,
    ← addAllIgn_append, flushAll_closed, writeToFileXML_alwaysOk, if_true]

/-! ## Claim theorems: the buffer frame and error-path claims -/

/-- C8: calling `Flush` on a `Buffer` whose current page is empty (including
a freshly created `Buffer`) never writes a file, never increments the page
counter, never appends to the recorded locations, and returns no error (the
only effect is resetting the current sitemap pointer, as in the source). -/
theorem flush_empty_is_noop (ok : Nat → Bool) (b : Buffer) (d : Disk)
    (h : Sitemap.IsEmpty b.sitemap = true) :
    Buffer.Flush ok b d = (({ b with sitemap := none }, d), false) := by
  simp [Buffer.Flush, h]

theorem flush_empty_is_noop_witness :
    Sitemap.IsEmpty (NewBuffer "http://x" "cache/").sitemap = true
    ∧ Buffer.Flush alwaysOk (NewBuffer "http://x" "cache/") emptyDisk =
        ((NewBuffer "http://x" "cache/", emptyDisk), false) :=
  ⟨rfl, flush_empty_is_noop alwaysOk (NewBuffer "http://x" "cache/") emptyDisk rfl⟩

/-- C9: `Flush` is not atomic on storage failure: the page counter is
incremented before the write is attempted, and when the write fails `Flush`
returns the error with the counter already incremented, the failed page's
name absent from the recorded locations, the file map unchanged, and the
current page still held — so a later successful flush on the same buffer
writes page number `count + 2`, skipping the failed number `count + 1`. -/
theorem flush_failure_skips_page_number (ok ok2 : Nat → Bool) (b : Buffer)
    (d : Disk) (hne : Sitemap.IsEmpty b.sitemap = false)
    (hfail : ok d.attempts = false)
    (hok2 : ok2 (d.attempts + 1) = true) :
    Buffer.Flush ok b d =
      (({ b with count := b.count + 1 },
        { attempts := d.attempts + 1, files := d.files }), true)
    ∧ Buffer.Flush ok2 { b with count := b.count + 1 }
        { attempts := d.attempts + 1, files := d.files } =
      ((⟨none, b.count + 2, b.domain, b.cachePath,
          b.Locations ++ [sitemapName (b.count + 2)]⟩,
        ⟨d.attempts + 2,
          (b.cachePath ++ sitemapName (b.count + 2),
            .page (sitemapEntries b.sitemap)) :: d.files⟩), false) := by
  constructor
  · simp [Buffer.Flush, writeToFileXML, hne, hfail]
  · simp [Buffer.Flush, writeToFileXML, hne, hok2]

theorem flush_failure_skips_page_number_witness :
    Sitemap.IsEmpty (some [(⟨"http://x/a", none⟩ : Entry)]) = false
    ∧ (fun _ : Nat => false) 0 = false
    ∧ (fun _ : Nat => true) 1 = true
    ∧ Buffer.Flush (fun _ => false)
        ⟨some [⟨"http://x/a", none⟩], 0, "http://x", "cache/", []⟩ emptyDisk =
      ((⟨some [⟨"http://x/a", none⟩], 1, "http://x", "cache/", []⟩,
        ⟨1, []⟩), true) :=
  ⟨rfl, rfl, rfl,
    (flush_failure_skips_page_number (fun _ => false) (fun _ => true)
      ⟨some [⟨"http://x/a", none⟩], 0, "http://x", "cache/", []⟩ emptyDisk
      rfl rfl rfl).1⟩

/-- C1 (code bug): a router whose generation fails (here: the only
parameterized source reports a substitution error on its first callback) and
a first request with no cached index file.  The handler does not surface the
error as a failed response: `sitemapHandler.ServeHTTP` panics
(`panic(err)` in `sitemap.go`), leaving `fileHandler` unset. -/
theorem lazy_generation_failure_panics :
    ServeHTTP alwaysOk ⟨[], [⟨1, [.error ()], false⟩],
        ⟨"cache/", "/", 1, "http://x"⟩⟩ false emptyDisk =
      (false, emptyDisk, .panicked) := by decide

/-- C7 (code bug): `ServeHTTP` copies the router's `sync.RWMutex` by value
(`mutex := sh.router.sitemapMutex`), so two concurrent first requests lock
private copies and both can pass the `fileHandler` re-check and the
index-file check before either generates: under `raceSchedule` the
generation runs twice. -/
theorem concurrent_first_requests_generate_twice :
    (runSchedule raceSchedule initTwoReq).genCount = 2 := by decide

/-- C5 (counterexample): a previously `Ready` file set (`sitemap_1.xml` plus
an index) is on disk; an explicit regeneration writes its single page
(overwriting `sitemap_1.xml` in place) and then fails on the index write.
The call fails, yet the served `sitemap_1.xml` now holds the new attempt's
content, not the previously valid one — the old set does not remain
unchanged. -/
theorem failed_regeneration_overwrites_page :
    (Router.GenerateSitemaps (fun n => n == 0)
        ⟨[⟨1, "/a"⟩], [], ⟨"cache/", "/", 1, "http://x"⟩⟩
        ⟨0, [("cache/sitemap_1.xml", .page [⟨"http://x/old", some 1⟩]),
             ("cache/sitemapindex.xml", .index ["http://x/sitemap_1.xml"])]⟩).2
      = .error ()
    ∧ getFile (Router.GenerateSitemaps (fun n => n == 0)
        ⟨[⟨1, "/a"⟩], [], ⟨"cache/", "/", 1, "http://x"⟩⟩
        ⟨0, [("cache/sitemap_1.xml", .page [⟨"http://x/old", some 1⟩]),
             ("cache/sitemapindex.xml", .index ["http://x/sitemap_1.xml"])]⟩).1
        "cache/sitemap_1.xml"
      = some (.page [⟨"http://x/a", some 1⟩])
    ∧ getFile ⟨0, [("cache/sitemap_1.xml", .page [⟨"http://x/old", some 1⟩]),
             ("cache/sitemapindex.xml", .index ["http://x/sitemap_1.xml"])]⟩
        "cache/sitemap_1.xml"
      = some (.page [⟨"http://x/old", some 1⟩])
    ∧ (FileContent.page [⟨"http://x/a", some 1⟩])
        ≠ .page [⟨"http://x/old", some 1⟩] := by decide

/-- C3: adding `n` entries to a fresh `Buffer` and flushing produces exactly
`⌈n / 50000⌉` pages (`(n + 49999) / 50000` in `Nat` arithmetic), named
`sitemap_1.xml`, `sitemap_2.xml`, … — so page 1 holds entries
1..50000 (`chunkAt es 0 = es.take 50000`) and entry 50001 begins page 2
(`chunkAt es 1`) — and 0 entries give 0 pages and an index with zero
references (second conjunct: a generation over no sources writes an index
containing `[]`). -/
theorem page_count_is_ceil (dom cp sp : String) (pr : Rat) (d0 : Disk)
    (es : List Entry) :
    Buffer.Flush alwaysOk (addAllIgn alwaysOk es (NewBuffer dom cp, d0)).1
        (addAllIgn alwaysOk es (NewBuffer dom cp, d0)).2 =
      ((⟨none, (es.length + 49999) / 50000, dom, cp,
          (List.range ((es.length + 49999) / 50000)).map
            (fun i => sitemapName (i + 1))⟩,
        ⟨d0.attempts + (es.length + 49999) / 50000,
          pagesFiles cp es ((es.length + 49999) / 50000) ++ d0.files⟩),
        false)
    ∧ chunkAt es 0 = es.take 50000
    ∧ Router.GenerateSitemaps alwaysOk ⟨[], [], ⟨cp, sp, pr, dom⟩⟩ d0 =
      (⟨d0.attempts + 1, (cp ++ indexName, .index []) :: d0.files⟩,
        .ok [indexName]) := by
  refine ⟨flushAll_closed dom cp d0 es, by simp [chunkAt], ?_⟩
  rw [generate_allOk_closed _ d0 (by simp)]
  norm_num [expectedEntries, pagesFiles, NewSitemapIndex]

/-- C4: for sources whose enumerators succeed, the entries written by
`GenerateSitemaps` (the concatenation of the written pages, in page order)
are exactly: one entry per static source in registration order, then for
each parameterized source in registration order one entry per enumerator
callback in callback order (`expectedEntries`). -/
theorem generation_entry_order (r : Router)
    (h : ∀ p ∈ r.paramEntries, p.enumErr = false ∧
      ∀ s ∈ p.bindings, s.isOk = true) :
    (Router.GenerateSitemaps alwaysOk r emptyDisk).2.isOk = true
    ∧ (writtenPages
        (Router.GenerateSitemaps alwaysOk r emptyDisk).1.files).flatten
      = expectedEntries r := by
  rw [generate_allOk_closed r emptyDisk h]
  refine ⟨rfl, ?_⟩
  unfold writtenPages
  simp only [emptyDisk, List.append_nil, List.reverse_cons,
    List.filterMap_append, List.filterMap_cons, List.filterMap_nil]
  unfold pagesFiles
  rw [List.map_reverse, List.reverse_reverse, List.filterMap_map]
  have hcomp : ((fun (f : String × FileContent) =>
      match f.2 with
      | .page es => some es
      | .index _ => none) ∘
        (fun i => (r.Options.CachePath ++ sitemapName (i + 1),
          FileContent.page (chunkAt (expectedEntries r) i)))) =
      some ∘ chunkAt (expectedEntries r) := rfl
  rw [hcomp, List.filterMap_eq_map]
  have hdrop : (expectedEntries r).drop
      ((((expectedEntries r).length + 49999) / 50000) * 50000) = [] :=
    List.drop_eq_nil_of_le (by omega)
  have := flatten_chunks (expectedEntries r)
    (((expectedEntries r).length + 49999) / 50000)
  rw [hdrop, List.append_nil] at this
  simpa using this

/-- A small router used to instantiate the ordering theorem. -/
def demoRouter : Router :=
  ⟨[⟨1, "/s"⟩], [⟨1, [.ok "/p1", .ok "/p2"], false⟩],
    ⟨"cache/", "/", 1, "http://x"⟩⟩

theorem generation_entry_order_witness :
    (∀ p ∈ demoRouter.paramEntries, p.enumErr = false ∧
      ∀ s ∈ p.bindings, s.isOk = true)
    ∧ ((Router.GenerateSitemaps alwaysOk demoRouter emptyDisk).2.isOk = true
      ∧ (writtenPages
          (Router.GenerateSitemaps alwaysOk demoRouter
            emptyDisk).1.files).flatten
        = expectedEntries demoRouter) :=
  ⟨by decide, generation_entry_order demoRouter (by decide)⟩

/-- C10: every location string emitted is HTML-escaped — an entry's location
is the domain concatenated with the HTML-escaped route path
(`Router.fullLocation`), an index reference is the HTML-escaped full URL
(`NewSitemapIndex`) — and for a path containing `&` or `<` the stored
location differs from the raw `domain ++ path` concatenation. -/
theorem emitted_locations_are_escaped (r : Router) (p : String)
    (h : '&' ∈ p.data ∨ '<' ∈ p.data) :
    Router.fullLocation r p = r.Options.Domain ++ escapeString p
    ∧ Router.fullLocation r p ≠ r.Options.Domain ++ p
    ∧ ∀ urls : List String, NewSitemapIndex urls = urls.map escapeString := by
  refine ⟨rfl, ?_, fun urls => rfl⟩
  intro hEq
  have hdata := congrArg String.data hEq
  rw [Router.fullLocation, data_append, data_append] at hdata
  have h2 : (escapeString p).data = p.data := List.append_cancel_left hdata
  have h3 : (escapeString p).data.length = p.data.length := by rw [h2]
  have h4 := escapeData_length_lt p.data h
  simp only [escapeString] at h3
  omega

theorem emitted_locations_are_escaped_witness :
    ('&' ∈ ("/a&b" : String).data ∨ '<' ∈ ("/a&b" : String).data)
    ∧ Router.fullLocation ⟨[], [], ⟨"cache/", "/", 1, "http://x"⟩⟩ "/a&b"
        ≠ "http://x" ++ "/a&b" :=
  ⟨by decide,
    (emitted_locations_are_escaped ⟨[], [], ⟨"cache/", "/", 1, "http://x"⟩⟩
      "/a&b" (by decide)).2.1⟩

/-! ## Disk-independence of the generation result under successful storage

When every write succeeds, the buffer evolution — and hence the returned
file list — does not depend on what is already on disk.  The `pure*`
functions below are proof-side abstractions: the buffer projection of each
operation under `alwaysOk`, with the disk argument dropped. -/

def pureFlush (b : Buffer) : Buffer :=
  if Sitemap.IsEmpty b.sitemap then { b with sitemap := none }
  else ⟨none, b.count + 1, b.domain, b.cachePath,
    b.Locations ++ [sitemapName (b.count + 1)]⟩

def pureAdd (b : Buffer) (e : Entry) : Buffer :=
  let b1 := if Sitemap.IsFull b.sitemap then pureFlush b else b
  { b1 with sitemap := some (sitemapEntries b1.sitemap ++ [e]) }

def pureCallbacks (r : Router) (p : paramPath) :
    List (Except Unit String) → Buffer → Buffer × Bool
  | [], b => (b, false)
  | .error _ :: _, b => (b, true)
  | .ok url :: rest, b => pureCallbacks r p rest (pureAdd b (paramEntryOf r p url))

def pureEnumerator (r : Router) (p : paramPath) (b : Buffer) : Buffer × Bool :=
  let s := pureCallbacks r p p.bindings b
  if s.2 then s else (s.1, p.enumErr)

def pureParams (r : Router) : List paramPath → Buffer → Buffer × Bool
  | [], b => (b, false)
  | p :: ps, b =>
    let s := pureEnumerator r p b
    if s.2 then s else pureParams r ps s.1

def pureGenerate (r : Router) : Except Unit (List String) :=
  let b1 := (r.staticEntries.map (staticEntry r)).foldl pureAdd
    (NewBuffer r.Options.Domain r.Options.CachePath)
  let s := pureParams r r.paramEntries b1
  if s.2 then .error ()
  else .ok ((pureFlush s.1).Locations ++ [indexName])

theorem flush_proj (b : Buffer) (d : Disk) :
    (Buffer.Flush alwaysOk b d).1.1 = pureFlush b := by
  unfold Buffer.Flush pureFlush
  split
  · rfl
  · simp [writeToFileXML, alwaysOk]

theorem addEntry_proj (b : Buffer) (d : Disk) (e : Entry) :
    (Buffer.AddEntry alwaysOk b d e).1.1 = pureAdd b e := by
  unfold Buffer.AddEntry pureAdd
  by_cases hf : Sitemap.IsFull b.sitemap = true
  · simp only [hf, if_true, flush_alwaysOk_noerr, Bool.false_eq_true,
      if_false]
    rw [flush_proj]
  · simp only [hf, if_false, Bool.false_eq_true]

theorem addAllIgn_proj :
    ∀ (es : List Entry) (b : Buffer) (d : Disk),
      (addAllIgn alwaysOk es (b, d)).1 = es.foldl pureAdd b
  | [], _, _ => rfl
  | e :: es, b, d => by
    rw [addAllIgn_cons,
      show (Buffer.AddEntry alwaysOk b d e).1 =
        ((Buffer.AddEntry alwaysOk b d e).1.1,
          (Buffer.AddEntry alwaysOk b d e).1.2) from rfl,
      addEntry_proj]
    exact addAllIgn_proj es (pureAdd b e) _

theorem runCallbacks_proj (r : Router) (p : paramPath) :
    ∀ (bs : List (Except Unit String)) (b : Buffer) (d : Disk),
      (runCallbacks alwaysOk r p bs (b, d)).1.1 = (pureCallbacks r p bs b).1
      ∧ (runCallbacks alwaysOk r p bs (b, d)).2 = (pureCallbacks r p bs b).2
  | [], _, _ => ⟨rfl, rfl⟩
  | .error _ :: _, _, _ => ⟨rfl, rfl⟩
  | .ok url :: bs, b, d => by
    simp only [runCallbacks, pureCallbacks, addEntry_alwaysOk_noerr,
      Bool.false_eq_true, if_false]
    rw [show (Buffer.AddEntry alwaysOk b d (paramEntryOf r p url)).1 =
        ((Buffer.AddEntry alwaysOk b d (paramEntryOf r p url)).1.1,
          (Buffer.AddEntry alwaysOk b d (paramEntryOf r p url)).1.2)
        from rfl, addEntry_proj]
    exact runCallbacks_proj r p bs _ _

theorem runEnumerator_proj (r : Router) (p : paramPath) (b : Buffer)
    (d : Disk) :
    (runEnumerator alwaysOk r p (b, d)).1.1 = (pureEnumerator r p b).1
    ∧ (runEnumerator alwaysOk r p (b, d)).2 = (pureEnumerator r p b).2 := by
  obtain ⟨h1, h2⟩ := runCallbacks_proj r p p.bindings b d
  unfold runEnumerator pureEnumerator
  refine ⟨?_, ?_⟩ <;> cases hc : (pureCallbacks r p p.bindings b).2 <;>
    simp [h2.trans hc, hc, h1, h2]

theorem runParamEntries_proj (r : Router) :
    ∀ (ps : List paramPath) (b : Buffer) (d : Disk),
      (runParamEntries alwaysOk r ps (b, d)).1.1 = (pureParams r ps b).1
      ∧ (runParamEntries alwaysOk r ps (b, d)).2 = (pureParams r ps b).2
  | [], _, _ => ⟨rfl, rfl⟩
  | p :: ps, b, d => by
    obtain ⟨h1, h2⟩ := runEnumerator_proj r p b d
    unfold runParamEntries pureParams
    cases hc : (pureEnumerator r p b).2 with
    | false =>
      simp only [h2.trans hc, hc, Bool.false_eq_true, if_false]
      rw [show (runEnumerator alwaysOk r p (b, d)).1 =
          ((runEnumerator alwaysOk r p (b, d)).1.1,
            (runEnumerator alwaysOk r p (b, d)).1.2) from rfl, h1]
      exact runParamEntries_proj r ps _ _
    | true =>
      refine ⟨?_, ?_⟩ <;> simp [h2.trans hc, hc, h1, h2]

theorem generate_result_proj (r : Router) (d : Disk) :
    (Router.GenerateSitemaps alwaysOk r d).2 = pureGenerate r := by
  unfold Router.GenerateSitemaps pureGenerate
  rw [show (addAllIgn alwaysOk (r.staticEntries.map (staticEntry r))
      (NewBuffer r.Options.Domain r.Options.CachePath, d)) =
    ((addAllIgn alwaysOk (r.staticEntries.map (staticEntry r))
      (NewBuffer r.Options.Domain r.Options.CachePath, d)).1,
      (addAllIgn alwaysOk (r.staticEntries.map (staticEntry r))
      (NewBuffer r.Options.Domain r.Options.CachePath, d)).2) from rfl,
    addAllIgn_proj]
  obtain ⟨h1, h2⟩ := runParamEntries_proj r r.paramEntries
    ((r.staticEntries.map (staticEntry r)).foldl pureAdd
      (NewBuffer r.Options.Domain r.Options.CachePath))
    (addAllIgn alwaysOk (r.staticEntries.map (staticEntry r))
      (NewBuffer r.Options.Domain r.Options.CachePath, d)).2
  cases hc : (pureParams r r.paramEntries
      ((r.staticEntries.map (staticEntry r)).foldl pureAdd
        (NewBuffer r.Options.Domain r.Options.CachePath))).2 with
  | true =>
    simp [h2.trans hc, hc]
  | false =>
    simp only [h2.trans hc, hc, Bool.false_eq_true, if_false,
      flush_alwaysOk_noerr, writeToFileXML_alwaysOk]
    rw [show (runParamEntries alwaysOk r r.paramEntries
        ((r.staticEntries.map (staticEntry r)).foldl pureAdd
          (NewBuffer r.Options.Domain r.Options.CachePath),
          (addAllIgn alwaysOk (r.staticEntries.map (staticEntry r))
            (NewBuffer r.Options.Domain r.Options.CachePath, d)).2)).1 =
      ((runParamEntries alwaysOk r r.paramEntries
        ((r.staticEntries.map (staticEntry r)).foldl pureAdd
          (NewBuffer r.Options.Domain r.Options.CachePath),
          (addAllIgn alwaysOk (r.staticEntries.map (staticEntry r))
            (NewBuffer r.Options.Domain r.Options.CachePath, d)).2)).1.1,
        (runParamEntries alwaysOk r r.paramEntries
        ((r.staticEntries.map (staticEntry r)).foldl pureAdd
          (NewBuffer r.Options.Domain r.Options.CachePath),
          (addAllIgn alwaysOk (r.staticEntries.map (staticEntry r))
            (NewBuffer r.Options.Domain r.Options.CachePath, d)).2)).1.2)
      from rfl, h1, flush_proj]
    simp

/-- C6: with unchanged sources (the same `Router`, whose enumerators are
modelled as yielding the same bindings each run) and successful storage, a
second `GenerateSitemaps` call started on the disk produced by the first
returns the same file list — the same page count and the same relative
filenames — because each call starts from a fresh `Buffer` whose page
counter restarts at 1. -/
theorem regeneration_is_reproducible (r : Router) (d0 : Disk) :
    (Router.GenerateSitemaps alwaysOk r
        (Router.GenerateSitemaps alwaysOk r d0).1).2 =
      (Router.GenerateSitemaps alwaysOk r d0).2 :=
  (generate_result_proj r _).trans (generate_result_proj r d0).symm

/-! ## The static-entries loop discards flush errors: the C2 scenario -/

theorem addAllIgn_cons2 (ok : Nat → Bool) (e : Entry) (es : List Entry)
    (b : Buffer) (d : Disk) :
    addAllIgn ok (e :: es) (b, d) =
      addAllIgn ok es (Buffer.AddEntry ok b d e).1 := by
  simp [addAllIgn]

theorem addAllIgn_singleton2 (ok : Nat → Bool) (e : Entry) (b : Buffer)
    (d : Disk) :
    addAllIgn ok [e] (b, d) = (Buffer.AddEntry ok b d e).1 := by
  simp [addAllIgn]

/-- Filling a buffer below capacity touches neither the disk nor any other
buffer field, for any storage oracle. -/
theorem addAllIgn_fill (ok : Nat → Bool) :
    ∀ (es : List Entry) (b : Buffer) (d : Disk) (l : List Entry),
      b.sitemap = some l → l.length + es.length ≤ 50000 →
      addAllIgn ok es (b, d) = ({ b with sitemap := some (l ++ es) }, d)
  | [], b, d, l, hb, _ => by
    cases b
    simp only at hb
    simp [addAllIgn, hb]
  | e :: es, b, d, l, hb, hle => by
    have hnotfull : Sitemap.IsFull b.sitemap = false := by
      rw [hb]
      simp only [Sitemap.IsFull, decide_eq_false_iff_not]
      simp only [List.length_cons] at hle
      omega
    rw [addAllIgn_cons2, addEntry_notfull _ _ _ _ hnotfull]
    have := addAllIgn_fill ok es
      { b with sitemap := some (sitemapEntries b.sitemap ++ [e]) } d
      (l ++ [e]) (by rw [hb]; rfl)
      (by simp at hle ⊢; omega)
    rw [this]
    simp [List.append_assoc]

def ok1 : Nat → Bool := fun n => n != 0

def staticPathA : path := ⟨1, "/a"⟩

def cexStaticRouter : Router :=
  ⟨List.replicate 50002 staticPathA, [], ⟨"cache/", "/", 1, "http://x"⟩⟩

theorem addEntry_notfull_fst (ok : Nat → Bool) (b : Buffer) (d : Disk)
    (e : Entry) (h : Sitemap.IsFull b.sitemap = false) :
    (Buffer.AddEntry ok b d e).1 =
      ({ b with sitemap := some (sitemapEntries b.sitemap ++ [e]) }, d) := by
  rw [addEntry_notfull ok b d e h]

theorem addEntry_full_fail_fst (ok : Nat → Bool) (b : Buffer) (d : Disk)
    (e : Entry) (hfull : Sitemap.IsFull b.sitemap = true)
    (hf : ok d.attempts = false) :
    (Buffer.AddEntry ok b d e).1 =
      ({ b with count := b.count + 1 }, ⟨d.attempts + 1, d.files⟩) := by
  obtain ⟨l, hl⟩ : ∃ l, b.sitemap = some l := by
    cases hs : b.sitemap
    · rw [hs] at hfull; simp [Sitemap.IsFull] at hfull
    · exact ⟨_, rfl⟩
  have hne : Sitemap.IsEmpty b.sitemap = false := by
    rw [hl] at hfull ⊢
    simp only [Sitemap.IsFull, decide_eq_true_eq] at hfull
    simp only [Sitemap.IsEmpty]
    rw [List.isEmpty_eq_false]
    intro hnil
    rw [hnil] at hfull
    simp at hfull
  simp [Buffer.AddEntry, Buffer.Flush, hfull, hne, writeToFileXML, hf]

theorem addEntry_full_success_fst (ok : Nat → Bool) (b : Buffer) (d : Disk)
    (e : Entry) (hfull : Sitemap.IsFull b.sitemap = true)
    (hs : ok d.attempts = true) :
    (Buffer.AddEntry ok b d e).1 =
      (⟨some [e], b.count + 1, b.domain, b.cachePath,
        b.Locations ++ [sitemapName (b.count + 1)]⟩,
       ⟨d.attempts + 1,
        (b.cachePath ++ sitemapName (b.count + 1),
          .page (sitemapEntries b.sitemap)) :: d.files⟩) := by
  obtain ⟨l, hl⟩ : ∃ l, b.sitemap = some l := by
    cases hsm : b.sitemap
    · rw [hsm] at hfull; simp [Sitemap.IsFull] at hfull
    · exact ⟨_, rfl⟩
  have hne : Sitemap.IsEmpty b.sitemap = false := by
    rw [hl] at hfull ⊢
    simp only [Sitemap.IsFull, decide_eq_true_eq] at hfull
    simp only [Sitemap.IsEmpty]
    rw [List.isEmpty_eq_false]
    intro hnil
    rw [hnil] at hfull
    simp at hfull
  simp [Buffer.AddEntry, Buffer.Flush, hfull, hne, writeToFileXML, hs,
    sitemapEntries]

theorem addAllIgn_fresh_fill (ok : Nat → Bool) (e : Entry) (es : List Entry)
    (dom cp : String) (d : Disk) (h : es.length ≤ 49999) :
    addAllIgn ok (e :: es) (NewBuffer dom cp, d) =
      (⟨some (e :: es), 0, dom, cp, []⟩, d) := by
  rw [addAllIgn_cons2, addEntry_notfull_fst ok (NewBuffer dom cp) d e rfl]
  rw [addAllIgn_fill ok es _ d ([] ++ [e]) rfl (by simp; omega)]
  simp [NewBuffer]

theorem isFull_fifty (e : Entry) :
    Sitemap.IsFull (some (e :: List.replicate 49999 e)) = true := by
  simp only [Sitemap.IsFull, List.length_cons, List.length_replicate]
  decide



theorem cex_haddAll (e : Entry) :
    addAllIgn ok1 (List.replicate 50002 e)
        (NewBuffer "http://x" "cache/", emptyDisk) =
      (⟨some [e], 2, "http://x", "cache/", [sitemapName 2]⟩,
       ⟨2, [("cache/" ++ sitemapName 2,
          FileContent.page (e :: List.replicate 49999 e))]⟩) := by
  have hsplit : List.replicate 50002 e =
      ((e :: List.replicate 49999 e) ++ [e]) ++ [e] := by
    rw [show (50002 : Nat) = 49999 + 1 + 1 + 1 by norm_num,
      List.replicate_succ', List.replicate_succ', List.replicate_succ]
  have s1 : addAllIgn ok1 (e :: List.replicate 49999 e)
      (NewBuffer "http://x" "cache/", emptyDisk) =
      (⟨some (e :: List.replicate 49999 e), 0, "http://x", "cache/", []⟩,
        emptyDisk) :=
    addAllIgn_fresh_fill ok1 e _ _ _ _
      (by simp only [List.length_replicate]; decide)
  have s2 : addAllIgn ok1 [e]
      ((⟨some (e :: List.replicate 49999 e), 0, "http://x", "cache/", []⟩ :
        Buffer), emptyDisk) =
      (⟨some (e :: List.replicate 49999 e), 1, "http://x", "cache/", []⟩,
        (⟨1, []⟩ : Disk)) := by
    rw [addAllIgn_singleton2, addEntry_full_fail_fst ok1
      ⟨some (e :: List.replicate 49999 e), 0, "http://x", "cache/", []⟩
      emptyDisk e (isFull_fifty e) rfl]
    rfl
  have s3 : addAllIgn ok1 [e]
      ((⟨some (e :: List.replicate 49999 e), 1, "http://x", "cache/", []⟩ :
        Buffer), (⟨1, []⟩ : Disk)) =
      (⟨some [e], 2, "http://x", "cache/", [sitemapName 2]⟩,
       ⟨2, [("cache/" ++ sitemapName 2,
          FileContent.page (e :: List.replicate 49999 e))]⟩) := by
    rw [addAllIgn_singleton2, addEntry_full_success_fst ok1
      ⟨some (e :: List.replicate 49999 e), 1, "http://x", "cache/", []⟩
      ⟨1, []⟩ e (isFull_fifty e) rfl]
    rfl
  rw [hsplit, addAllIgn_append, addAllIgn_append, s1, s2, s3]

theorem cex_static_gen :
    Router.GenerateSitemaps ok1 cexStaticRouter emptyDisk =
      (⟨4, [("cache/sitemapindex.xml",
            .index ["http://x/sitemap_2.xml", "http://x/sitemap_3.xml"]),
          ("cache/sitemap_3.xml",
            .page [staticEntry cexStaticRouter staticPathA]),
          ("cache/sitemap_2.xml",
            .page (staticEntry cexStaticRouter staticPathA ::
              List.replicate 49999 (staticEntry cexStaticRouter staticPathA)))]⟩,
       .ok ["sitemap_2.xml", "sitemap_3.xml", "sitemapindex.xml"]) := by
  have hstat : cexStaticRouter.staticEntries =
      List.replicate 50002 staticPathA := rfl
  have hdom : cexStaticRouter.Options.Domain = "http://x" := rfl
  have hcp : cexStaticRouter.Options.CachePath = "cache/" := rfl
  simp only [Router.GenerateSitemaps, hstat, hdom, hcp]
  rw [List.map_replicate, cex_haddAll]
  rfl

/-- C2 (counterexample): 50002 static sources, storage failing exactly on the
first write attempt.  The flush triggered inside `AddEntry` while processing
static entry 50001 fails, but the static loop discards the error
(`buffer.AddEntry(...)` with the result ignored in the source), drops that
entry and continues: the run returns success (`.ok`) with pages numbered 2
and 3 — the failed page number 1 skipped — despite the storage error, so a
storage error during static-source processing does not abort the
generation. -/
theorem static_flush_error_is_ignored :
    ok1 0 = false
    ∧ (Router.GenerateSitemaps ok1 cexStaticRouter emptyDisk).2 =
        .ok ["sitemap_2.xml", "sitemap_3.xml", "sitemapindex.xml"]
    ∧ (Router.GenerateSitemaps ok1 cexStaticRouter emptyDisk).1.attempts
        = 4 := by
  refine ⟨rfl, ?_, ?_⟩ <;> rw [cex_static_gen]

/-- C2 (amended): an enumerator-reported error, a URL-substitution error, or
a storage error during parameterized-source processing, the final flush, or
the index write aborts the generation with an error, and a substitution
error stops the callback run at once; but (see the counterexample) storage
errors from flushes inside the static-entries loop are discarded. -/
theorem generation_aborts_on_param_flush_or_index_errors (ok : Nat → Bool)
    (r : Router) (d : Disk) :
    (∀ (p : paramPath) (post : List (Except Unit String))
        (bd : Buffer × Disk),
      runCallbacks ok r p (Except.error () :: post) bd = (bd, true))
    ∧ ((runParamEntries ok r r.paramEntries
          (addAllIgn ok (r.staticEntries.map (staticEntry r))
            (NewBuffer r.Options.Domain r.Options.CachePath, d))).2 = true →
        (Router.GenerateSitemaps ok r d).2 = .error ())
    ∧ ((runParamEntries ok r r.paramEntries
          (addAllIgn ok (r.staticEntries.map (staticEntry r))
            (NewBuffer r.Options.Domain r.Options.CachePath, d))).2 = false →
        (Buffer.Flush ok
          (runParamEntries ok r r.paramEntries
            (addAllIgn ok (r.staticEntries.map (staticEntry r))
              (NewBuffer r.Options.Domain r.Options.CachePath, d))).1.1
          (runParamEntries ok r r.paramEntries
            (addAllIgn ok (r.staticEntries.map (staticEntry r))
              (NewBuffer r.Options.Domain r.Options.CachePath, d))).1.2).2
          = true →
        (Router.GenerateSitemaps ok r d).2 = .error ())
    ∧ ((runParamEntries ok r r.paramEntries
          (addAllIgn ok (r.staticEntries.map (staticEntry r))
            (NewBuffer r.Options.Domain r.Options.CachePath, d))).2 = false →
        (Buffer.Flush ok
          (runParamEntries ok r r.paramEntries
            (addAllIgn ok (r.staticEntries.map (staticEntry r))
              (NewBuffer r.Options.Domain r.Options.CachePath, d))).1.1
          (runParamEntries ok r r.paramEntries
            (addAllIgn ok (r.staticEntries.map (staticEntry r))
              (NewBuffer r.Options.Domain r.Options.CachePath, d))).1.2).2
          = false →
        ok (Disk.attempts (Buffer.Flush ok
          (runParamEntries ok r r.paramEntries
            (addAllIgn ok (r.staticEntries.map (staticEntry r))
              (NewBuffer r.Options.Domain r.Options.CachePath, d))).1.1
          (runParamEntries ok r r.paramEntries
            (addAllIgn ok (r.staticEntries.map (staticEntry r))
              (NewBuffer r.Options.Domain r.Options.CachePath, d))).1.2).1.2)
          = false →
        (Router.GenerateSitemaps ok r d).2 = .error ()) := by
  refine ⟨fun p post bd => rfl, fun h => ?_, fun h1 h2 => ?_,
    fun h1 h2 h3 => ?_⟩
  · simp [Router.GenerateSitemaps, h]
  · simp [Router.GenerateSitemaps, h1, h2]
  · simp [Router.GenerateSitemaps, writeToFileXML, h1, h2, h3]

/-- A router whose only parameterized source fails to substitute its first
callback. -/
def cexParamRouter : Router :=
  ⟨[], [⟨1, [.error ()], false⟩], ⟨"cache/", "/", 1, "http://x"⟩⟩

theorem generation_aborts_on_param_flush_or_index_errors_witness :
    (runParamEntries alwaysOk cexParamRouter cexParamRouter.paramEntries
        (addAllIgn alwaysOk
          (cexParamRouter.staticEntries.map (staticEntry cexParamRouter))
          (NewBuffer cexParamRouter.Options.Domain
            cexParamRouter.Options.CachePath, emptyDisk))).2 = true
    ∧ (Router.GenerateSitemaps alwaysOk cexParamRouter emptyDisk).2 =
        .error () :=
  ⟨by decide,
    (generation_aborts_on_param_flush_or_index_errors alwaysOk cexParamRouter
      emptyDisk).2.1 (by decide)⟩

/-! ## Failures before the index write leave the index file untouched -/

theorem sitemapName_ne_indexName (k : Nat) : sitemapName k ≠ indexName := by
  intro h
  have hd := congrArg String.data h
  rw [sitemapName, indexName, data_append, data_append] at hd
  have h7 := congrArg (fun l => l[7]?) hd
  simp only at h7
  rw [List.getElem?_append_left (by simp),
    List.getElem?_append_left (by decide)] at h7
  exact absurd h7 (by decide)

theorem getFile_write_other (ok : Nat → Bool) (d : Disk) (name : String)
    (content : FileContent) (K : String) (h : K ≠ name) :
    getFile (writeToFileXML ok d name content).2 K = getFile d K := by
  unfold writeToFileXML
  split
  · simp only [getFile]
    rw [List.find?_cons_of_neg]
    simp only [beq_iff_eq]
    exact fun hh => h (hh.symm)
  · rfl

theorem getFile_write_fail (ok : Nat → Bool) (d : Disk) (name : String)
    (content : FileContent) (K : String) (h : ok d.attempts = false) :
    getFile (writeToFileXML ok d name content).2 K = getFile d K := by
  simp [writeToFileXML, h, getFile]

theorem flush_getFile_frame (ok : Nat → Bool) (b : Buffer) (d : Disk)
    (K : String) (h : ∀ k, K ≠ b.cachePath ++ sitemapName k) :
    getFile (Buffer.Flush ok b d).1.2 K = getFile d K := by
  simp only [Buffer.Flush]
  split
  · rfl
  · split
    · exact getFile_write_other ok d _ _ K (h _)
    · exact getFile_write_other ok d _ _ K (h _)

theorem flush_cachePath (ok : Nat → Bool) (b : Buffer) (d : Disk) :
    (Buffer.Flush ok b d).1.1.cachePath = b.cachePath := by
  simp only [Buffer.Flush]
  split
  · rfl
  · split
    · rfl
    · rfl

theorem addEntry_getFile_frame (ok : Nat → Bool) (b : Buffer) (d : Disk)
    (e : Entry) (K : String)
    (h : ∀ k, K ≠ b.cachePath ++ sitemapName k) :
    getFile (Buffer.AddEntry ok b d e).1.2 K = getFile d K := by
  simp only [Buffer.AddEntry]
  by_cases hf : Sitemap.IsFull b.sitemap = true
  · simp only [hf, if_true]
    by_cases he : (Buffer.Flush ok b d).2 = true
    · simp only [he, if_true]
      exact flush_getFile_frame ok b d K h
    · have he2 : (Buffer.Flush ok b d).2 = false := by simpa using he
      simp only [he2, Bool.false_eq_true, if_false]
      exact flush_getFile_frame ok b d K h
  · have hf2 : Sitemap.IsFull b.sitemap = false := by simpa using hf
    simp only [hf2, Bool.false_eq_true, if_false]

theorem addEntry_cachePath (ok : Nat → Bool) (b : Buffer) (d : Disk)
    (e : Entry) :
    (Buffer.AddEntry ok b d e).1.1.cachePath = b.cachePath := by
  simp only [Buffer.AddEntry]
  by_cases hf : Sitemap.IsFull b.sitemap = true
  · simp only [hf, if_true]
    by_cases he : (Buffer.Flush ok b d).2 = true
    · simp only [he, if_true]
      exact flush_cachePath ok b d
    · have he2 : (Buffer.Flush ok b d).2 = false := by simpa using he
      simp only [he2, Bool.false_eq_true, if_false]
      exact flush_cachePath ok b d
  · have hf2 : Sitemap.IsFull b.sitemap = false := by simpa using hf
    simp only [hf2, Bool.false_eq_true, if_false]

theorem addAllIgn_frame (ok : Nat → Bool) :
    ∀ (es : List Entry) (b : Buffer) (d : Disk) (K : String),
      (∀ k, K ≠ b.cachePath ++ sitemapName k) →
      getFile (addAllIgn ok es (b, d)).2 K = getFile d K
      ∧ (addAllIgn ok es (b, d)).1.cachePath = b.cachePath
  | [], _, _, _, _ => ⟨rfl, rfl⟩
  | e :: es, b, d, K, h => by
    rw [addAllIgn_cons2,
      show (Buffer.AddEntry ok b d e).1 =
        ((Buffer.AddEntry ok b d e).1.1, (Buffer.AddEntry ok b d e).1.2)
        from rfl]
    have hcp := addEntry_cachePath ok b d e
    obtain ⟨ih1, ih2⟩ := addAllIgn_frame ok es
      (Buffer.AddEntry ok b d e).1.1 (Buffer.AddEntry ok b d e).1.2 K
      (by rw [hcp]; exact h)
    exact ⟨ih1.trans (addEntry_getFile_frame ok b d e K h), ih2.trans hcp⟩

theorem runCallbacks_frame (ok : Nat → Bool) (r : Router) (p : paramPath) :
    ∀ (bs : List (Except Unit String)) (b : Buffer) (d : Disk) (K : String),
      (∀ k, K ≠ b.cachePath ++ sitemapName k) →
      getFile (runCallbacks ok r p bs (b, d)).1.2 K = getFile d K
      ∧ (runCallbacks ok r p bs (b, d)).1.1.cachePath = b.cachePath
  | [], _, _, _, _ => ⟨rfl, rfl⟩
  | .error _ :: _, _, _, _, _ => ⟨rfl, rfl⟩
  | .ok url :: bs, b, d, K, h => by
    simp only [runCallbacks]
    by_cases he : (Buffer.AddEntry ok b d (paramEntryOf r p url)).2 = true
    · simp only [he, if_true]
      exact ⟨addEntry_getFile_frame ok b d _ K h, addEntry_cachePath ok b d _⟩
    · have he2 : (Buffer.AddEntry ok b d (paramEntryOf r p url)).2 = false :=
        by simpa using he
      simp only [he2, Bool.false_eq_true, if_false]
      rw [show (Buffer.AddEntry ok b d (paramEntryOf r p url)).1 =
        ((Buffer.AddEntry ok b d (paramEntryOf r p url)).1.1,
          (Buffer.AddEntry ok b d (paramEntryOf r p url)).1.2) from rfl]
      have hcp := addEntry_cachePath ok b d (paramEntryOf r p url)
      obtain ⟨ih1, ih2⟩ := runCallbacks_frame ok r p bs
        (Buffer.AddEntry ok b d (paramEntryOf r p url)).1.1
        (Buffer.AddEntry ok b d (paramEntryOf r p url)).1.2 K
        (by rw [hcp]; exact h)
      exact ⟨ih1.trans (addEntry_getFile_frame ok b d _ K h), ih2.trans hcp⟩

theorem runEnumerator_frame (ok : Nat → Bool) (r : Router) (p : paramPath)
    (b : Buffer) (d : Disk) (K : String)
    (h : ∀ k, K ≠ b.cachePath ++ sitemapName k) :
    getFile (runEnumerator ok r p (b, d)).1.2 K = getFile d K
    ∧ (runEnumerator ok r p (b, d)).1.1.cachePath = b.cachePath := by
  unfold runEnumerator
  obtain ⟨h1, h2⟩ := runCallbacks_frame ok r p p.bindings b d K h
  by_cases hc : (runCallbacks ok r p p.bindings (b, d)).2 = true
  · simp only [hc, if_true]
    exact ⟨h1, h2⟩
  · have hc2 : (runCallbacks ok r p p.bindings (b, d)).2 = false :=
      by simpa using hc
    simp only [hc2, Bool.false_eq_true, if_false]
    exact ⟨h1, h2⟩

theorem runParamEntries_frame (ok : Nat → Bool) (r : Router) :
    ∀ (ps : List paramPath) (b : Buffer) (d : Disk) (K : String),
      (∀ k, K ≠ b.cachePath ++ sitemapName k) →
      getFile (runParamEntries ok r ps (b, d)).1.2 K = getFile d K
      ∧ (runParamEntries ok r ps (b, d)).1.1.cachePath = b.cachePath
  | [], _, _, _, _ => ⟨rfl, rfl⟩
  | p :: ps, b, d, K, h => by
    simp only [runParamEntries]
    obtain ⟨h1, h2⟩ := runEnumerator_frame ok r p b d K h
    by_cases hc : (runEnumerator ok r p (b, d)).2 = true
    · simp only [hc, if_true]
      exact ⟨h1, h2⟩
    · have hc2 : (runEnumerator ok r p (b, d)).2 = false := by simpa using hc
      simp only [hc2, Bool.false_eq_true, if_false]
      rw [show (runEnumerator ok r p (b, d)).1 =
        ((runEnumerator ok r p (b, d)).1.1,
          (runEnumerator ok r p (b, d)).1.2) from rfl]
      obtain ⟨ih1, ih2⟩ := runParamEntries_frame ok r ps
        (runEnumerator ok r p (b, d)).1.1
        (runEnumerator ok r p (b, d)).1.2 K (by rw [h2]; exact h)
      exact ⟨ih1.trans h1, ih2.trans h2⟩

theorem addAllIgn_frame2 (ok : Nat → Bool) (es : List Entry)
    (bd : Buffer × Disk) (K : String)
    (h : ∀ k, K ≠ bd.1.cachePath ++ sitemapName k) :
    getFile (addAllIgn ok es bd).2 K = getFile bd.2 K
    ∧ (addAllIgn ok es bd).1.cachePath = bd.1.cachePath := by
  obtain ⟨b, d⟩ := bd
  exact addAllIgn_frame ok es b d K h

theorem runParamEntries_frame2 (ok : Nat → Bool) (r : Router)
    (ps : List paramPath) (bd : Buffer × Disk) (K : String)
    (h : ∀ k, K ≠ bd.1.cachePath ++ sitemapName k) :
    getFile (runParamEntries ok r ps bd).1.2 K = getFile bd.2 K
    ∧ (runParamEntries ok r ps bd).1.1.cachePath = bd.1.cachePath := by
  obtain ⟨b, d⟩ := bd
  exact runParamEntries_frame ok r ps b d K h

/-- C5 (amended): on failure the recorded file set is superseded only in the
sense that no new file list is returned, and when the failure occurs before
the index write is attempted — a parameterized-source error or a storage
error in the final flush — the index file on disk is unchanged (every write
on those paths targets `cachePath ++ sitemap_<k>.xml`, never
`cachePath ++ sitemapindex.xml`), so the previous index keeps referencing
the prior page set.  Page files flushed by the attempt overwrite same-named
prior pages in place (see the counterexample), and a failure during the
index write itself can leave the index truncated or partially written,
because the source's `os.Create` truncates the target before writing. -/
theorem failed_generation_preserves_index (ok : Nat → Bool) (r : Router)
    (d : Disk)
    (h : (runParamEntries ok r r.paramEntries
          (addAllIgn ok (r.staticEntries.map (staticEntry r))
            (NewBuffer r.Options.Domain r.Options.CachePath, d))).2 = true
      ∨ ((runParamEntries ok r r.paramEntries
            (addAllIgn ok (r.staticEntries.map (staticEntry r))
              (NewBuffer r.Options.Domain r.Options.CachePath, d))).2 = false
          ∧ (Buffer.Flush ok
              (runParamEntries ok r r.paramEntries
                (addAllIgn ok (r.staticEntries.map (staticEntry r))
                  (NewBuffer r.Options.Domain r.Options.CachePath, d))).1.1
              (runParamEntries ok r r.paramEntries
                (addAllIgn ok (r.staticEntries.map (staticEntry r))
                  (NewBuffer r.Options.Domain r.Options.CachePath,
                    d))).1.2).2 = true)) :
    (Router.GenerateSitemaps ok r d).2 = .error ()
    ∧ getFile (Router.GenerateSitemaps ok r d).1
        (r.Options.CachePath ++ indexName) =
      getFile d (r.Options.CachePath ++ indexName) := by
  have hKk : ∀ k, r.Options.CachePath ++ indexName ≠
      r.Options.CachePath ++ sitemapName k := by
    intro k heq
    have hd := congrArg String.data heq
    rw [data_append, data_append] at hd
    have h2 := string_eq_of_data_eq (List.append_cancel_left hd)
    exact sitemapName_ne_indexName k h2.symm
  simp only [Router.GenerateSitemaps]
  set K := r.Options.CachePath ++ indexName with hKdef
  set A := addAllIgn ok (r.staticEntries.map (staticEntry r))
    (NewBuffer r.Options.Domain r.Options.CachePath, d) with hA
  obtain ⟨hs1, hs2⟩ := addAllIgn_frame2 ok
    (r.staticEntries.map (staticEntry r))
    (NewBuffer r.Options.Domain r.Options.CachePath, d) K hKk
  rw [← hA] at hs1 hs2
  set S := runParamEntries ok r r.paramEntries A with hS
  obtain ⟨hp1, hp2⟩ := runParamEntries_frame2 ok r r.paramEntries A K
    (by rw [hs2]; exact hKk)
  rw [← hS] at hp1 hp2
  set F := Buffer.Flush ok S.1.1 S.1.2 with hF
  have hfl := flush_getFile_frame ok S.1.1 S.1.2 K
    (by rw [hp2, hs2]; exact hKk)
  rw [← hF] at hfl
  rcases h with c1 | ⟨c1f, c2⟩
  · simp only [c1, if_true]
    exact ⟨trivial, hp1.trans hs1⟩
  · simp only [c1f, Bool.false_eq_true, if_false, c2, if_true]
    exact ⟨trivial, hfl.trans (hp1.trans hs1)⟩

theorem failed_generation_preserves_index_witness :
    ((runParamEntries (fun _ => false)
        ⟨[⟨1, "/a"⟩], [], ⟨"cache/", "/", 1, "http://x"⟩⟩
        (Router.paramEntries ⟨[⟨1, "/a"⟩], [], ⟨"cache/", "/", 1, "http://x"⟩⟩)
        (addAllIgn (fun _ => false)
          ((Router.staticEntries
              ⟨[⟨1, "/a"⟩], [], ⟨"cache/", "/", 1, "http://x"⟩⟩).map
            (staticEntry ⟨[⟨1, "/a"⟩], [], ⟨"cache/", "/", 1, "http://x"⟩⟩))
          (NewBuffer "http://x" "cache/",
            ⟨0, [("cache/sitemap_1.xml", .page [⟨"http://x/old", some 1⟩]),
                 ("cache/sitemapindex.xml",
                   .index ["http://x/sitemap_1.xml"])]⟩))).2 = false
      ∧ (Buffer.Flush (fun _ => false)
          (runParamEntries (fun _ => false)
            ⟨[⟨1, "/a"⟩], [], ⟨"cache/", "/", 1, "http://x"⟩⟩
            (Router.paramEntries
              ⟨[⟨1, "/a"⟩], [], ⟨"cache/", "/", 1, "http://x"⟩⟩)
            (addAllIgn (fun _ => false)
              ((Router.staticEntries
                  ⟨[⟨1, "/a"⟩], [], ⟨"cache/", "/", 1, "http://x"⟩⟩).map
                (staticEntry ⟨[⟨1, "/a"⟩], [], ⟨"cache/", "/", 1, "http://x"⟩⟩))
              (NewBuffer "http://x" "cache/",
                ⟨0, [("cache/sitemap_1.xml", .page [⟨"http://x/old", some 1⟩]),
                     ("cache/sitemapindex.xml",
                       .index ["http://x/sitemap_1.xml"])]⟩))).1.1
          (runParamEntries (fun _ => false)
            ⟨[⟨1, "/a"⟩], [], ⟨"cache/", "/", 1, "http://x"⟩⟩
            (Router.paramEntries
              ⟨[⟨1, "/a"⟩], [], ⟨"cache/", "/", 1, "http://x"⟩⟩)
            (addAllIgn (fun _ => false)
              ((Router.staticEntries
                  ⟨[⟨1, "/a"⟩], [], ⟨"cache/", "/", 1, "http://x"⟩⟩).map
                (staticEntry ⟨[⟨1, "/a"⟩], [], ⟨"cache/", "/", 1, "http://x"⟩⟩))
              (NewBuffer "http://x" "cache/",
                ⟨0, [("cache/sitemap_1.xml", .page [⟨"http://x/old", some 1⟩]),
                     ("cache/sitemapindex.xml",
                       .index ["http://x/sitemap_1.xml"])]⟩))).1.2).2 = true)
    ∧ ((Router.GenerateSitemaps (fun _ => false)
        ⟨[⟨1, "/a"⟩], [], ⟨"cache/", "/", 1, "http://x"⟩⟩
        ⟨0, [("cache/sitemap_1.xml", .page [⟨"http://x/old", some 1⟩]),
             ("cache/sitemapindex.xml",
               .index ["http://x/sitemap_1.xml"])]⟩).2 = .error ()
      ∧ getFile (Router.GenerateSitemaps (fun _ => false)
          ⟨[⟨1, "/a"⟩], [], ⟨"cache/", "/", 1, "http://x"⟩⟩
          ⟨0, [("cache/sitemap_1.xml", .page [⟨"http://x/old", some 1⟩]),
               ("cache/sitemapindex.xml",
                 .index ["http://x/sitemap_1.xml"])]⟩).1
          ("cache/" ++ indexName) =
        getFile ⟨0, [("cache/sitemap_1.xml", .page [⟨"http://x/old", some 1⟩]),
               ("cache/sitemapindex.xml",
                 .index ["http://x/sitemap_1.xml"])]⟩
          ("cache/" ++ indexName)) :=
  ⟨⟨by decide, by decide⟩,
    failed_generation_preserves_index (fun _ => false)
      ⟨[⟨1, "/a"⟩], [], ⟨"cache/", "/", 1, "http://x"⟩⟩
      ⟨0, [("cache/sitemap_1.xml", .page [⟨"http://x/old", some 1⟩]),
           ("cache/sitemapindex.xml", .index ["http://x/sitemap_1.xml"])]⟩
      (Or.inr ⟨by decide, by decide⟩)⟩

end SitemapModel